import Mathlib

/-!
Shallow embedding of the hepcrawl harvest-state manager
(src/hepcrawl/spiders/common/oaipmh_spider.py) and of the Hindawi record
normalizer (src/hepcrawl/spiders/hindawi_spider.py), together with theorems
settling the specified behaviour.  Pure helpers of the Python runtime
(string truthiness, substring test, datetime formatting, sha1) are embedded
as executable Lean functions; filesystem and network effects are embedded by
passing the outcome of each external operation as an explicit value.
-/

namespace Hepcrawl

/-- Truthiness of a Python string: a string is truthy when nonempty. -/
def pyTruthy (s : String) : Bool := !(s == "")

/-- Truthiness of an optional Python string: None and the empty string are falsy. -/
def pyTruthyOpt : Option String → Bool
  | none => false
  | some s => pyTruthy s

/-- Python expression a or b where a is an optional string and b a string. -/
def pyOr (a : Option String) (b : String) : String :=
  match a with
  | some s => if pyTruthy s then s else b
  | none => b

/-- Python string interpolation of a value that may be None: None renders as the text None. -/
def pyFormatOpt : Option String → String
  | some s => s
  | none => "None"

/-- Python str.lower on the ASCII strings this code handles. -/
def pyLower (s : String) : String := String.mk (s.toList.map Char.toLower)

/-- Python str.upper on the ASCII strings this code handles. -/
def pyUpper (s : String) : String := String.mk (s.toList.map Char.toUpper)

def listStartsWith : List Char → List Char → Bool
  | [], _ => true
  | _ :: _, [] => false
  | p :: ps, c :: cs => p == c && listStartsWith ps cs

def listContainsSub (pat : List Char) : List Char → Bool
  | [] => listStartsWith pat []
  | c :: cs => listStartsWith pat (c :: cs) || listContainsSub pat cs

/-- Python substring membership test, pat in s. -/
def pyIn (pat s : String) : Bool := listContainsSub pat.toList s.toList

/-- Python list(set(l)): the distinct elements of l.  CPython leaves the
iteration order of a set unspecified; the spec likewise guarantees nothing
about the order, so the embedding fixes one concrete order. -/
def pySet (l : List String) : List String := l.dedup

/-- A Python datetime.datetime value, as produced by datetime.utcnow. -/
structure PyDateTime where
  year : Nat
  month : Nat
  day : Nat
  hour : Nat
  minute : Nat
  second : Nat
  microsecond : Nat
deriving DecidableEq

/-- Chronological key of a datetime.  For field values inside their calendar
ranges this order agrees with Python datetime comparison. -/
def PyDateTime.key (d : PyDateTime) : Nat :=
  ((((d.year * 13 + d.month) * 32 + d.day) * 24 + d.hour) * 60 + d.minute) * 60000000 +
    d.second * 1000000 + d.microsecond

/-- Decimal rendering of a natural number, left padded with zeros to the given width. -/
def natPad (width n : Nat) : String :=
  let s := toString n
  if s.length < width then String.mk (List.replicate (width - s.length) '0') ++ s else s

/-- Python datetime.isoformat(): YYYY-MM-DDTHH:MM:SS.ffffff, with the
fractional part omitted when the microsecond field is zero. -/
def PyDateTime.isoformat (d : PyDateTime) : String :=
  natPad 4 d.year ++ "-" ++ natPad 2 d.month ++ "-" ++ natPad 2 d.day ++ "T" ++
    natPad 2 d.hour ++ ":" ++ natPad 2 d.minute ++ ":" ++ natPad 2 d.second ++
    (if d.microsecond == 0 then "" else "." ++ natPad 6 d.microsecond)

def digitsToNat (l : List Char) : Nat := l.foldl (fun a c => a * 10 + (c.toNat - 48)) 0

/-- Model of dateutil.parser.parse restricted to the ISO-8601 strings this
program feeds it: YYYY-MM-DD date strings from the harvest configuration and
datetime.isoformat outputs from the persisted run file. -/
def dateutil_parse (s : String) : PyDateTime :=
  let cs := s.toList
  { year := digitsToNat (cs.take 4), month := digitsToNat ((cs.drop 5).take 2),
    day := digitsToNat ((cs.drop 8).take 2), hour := digitsToNat ((cs.drop 11).take 2),
    minute := digitsToNat ((cs.drop 14).take 2), second := digitsToNat ((cs.drop 17).take 2),
    microsecond := digitsToNat ((cs.drop 20).take 6) }

/-- Python datetime.strftime with the format string for YYYY-MM-DD. -/
def strftime_Ymd (d : PyDateTime) : String :=
  natPad 4 d.year ++ "-" ++ natPad 2 d.month ++ "-" ++ natPad 2 d.day

/-! SHA-1, as used by hashlib.sha1(...).hexdigest() in _last_run_file_path.
Words are naturals reduced modulo 2 to the 32. -/

def w32 (n : Nat) : Nat := n % 4294967296

def rotl (k n : Nat) : Nat := w32 (n * 2 ^ k + n / 2 ^ (32 - k))

/-- Bytes of an ASCII string, one natural below 256 per character. -/
def strBytes (s : String) : List Nat := s.toList.map Char.toNat

/-- SHA-1 message padding: a 0x80 byte, zeros to 56 mod 64, then the bit
length as eight big-endian bytes. -/
def sha1Pad (msg : List Nat) : List Nat :=
  let padZeros := (119 - msg.length % 64) % 64
  msg ++ [128] ++ List.replicate padZeros 0 ++
    (List.range 8).map (fun i => 8 * msg.length / 2 ^ (8 * (7 - i)) % 256)

def chunks64 (l : List Nat) : List (List Nat) :=
  if _h : l.length = 0 then [] else l.take 64 :: chunks64 (l.drop 64)
termination_by l.length
decreasing_by simp only [List.length_drop]; omega

def beWord (bytes : List Nat) : Nat := bytes.foldl (fun a b => a * 256 + b) 0

def chunkWords (chunk : List Nat) : List Nat :=
  (List.range 16).map (fun i => beWord ((chunk.drop (4 * i)).take 4))

def extendWords (ws : List Nat) : List Nat :=
  (List.range 64).foldl
    (fun acc _ =>
      acc ++ [rotl 1 (Nat.xor (Nat.xor (acc.getD (acc.length - 3) 0) (acc.getD (acc.length - 8) 0))
        (Nat.xor (acc.getD (acc.length - 14) 0) (acc.getD (acc.length - 16) 0)))]) ws

def sha1F (t b c d : Nat) : Nat :=
  if t < 20 then Nat.lor (Nat.land b c) (Nat.land (Nat.xor b 4294967295) d)
  else if t < 40 then Nat.xor (Nat.xor b c) d
  else if t < 60 then Nat.lor (Nat.lor (Nat.land b c) (Nat.land b d)) (Nat.land c d)
  else Nat.xor (Nat.xor b c) d

def sha1K (t : Nat) : Nat :=
  if t < 20 then 0x5A827999
  else if t < 40 then 0x6ED9EBA1
  else if t < 60 then 0x8F1BBCDC
  else 0xCA62C1D6

def sha1Round (ws : List Nat) (st : Nat × Nat × Nat × Nat × Nat) (t : Nat) :
    Nat × Nat × Nat × Nat × Nat :=
  match st with
  | (a, b, c, d, e) =>
    (w32 (rotl 5 a + sha1F t b c d + e + sha1K t + ws.getD t 0), a, rotl 30 b, c, d)

def sha1Chunk (h : Nat × Nat × Nat × Nat × Nat) (chunk : List Nat) :
    Nat × Nat × Nat × Nat × Nat :=
  match h with
  | (h0, h1, h2, h3, h4) =>
    match (List.range 80).foldl (sha1Round (extendWords (chunkWords chunk))) (h0, h1, h2, h3, h4) with
    | (a, b, c, d, e) => (w32 (h0 + a), w32 (h1 + b), w32 (h2 + c), w32 (h3 + d), w32 (h4 + e))

def hexDigit (n : Nat) : Char := if n < 10 then Char.ofNat (48 + n) else Char.ofNat (87 + n)

def word8Hex (n : Nat) : String :=
  String.mk ((List.range 8).map (fun i => hexDigit (n / 2 ^ (4 * (7 - i)) % 16)))

/-- hashlib.sha1(s).hexdigest() on an ASCII string s. -/
def sha1_hexdigest (s : String) : String :=
  match (chunks64 (sha1Pad (strBytes s))).foldl sha1Chunk
      (0x67452301, 0xEFCDAB89, 0x98BADCFE, 0x10325476, 0xC3D2E1F0) with
  | (h0, h1, h2, h3, h4) =>
    word8Hex h0 ++ word8Hex h1 ++ word8Hex h2 ++ word8Hex h3 ++ word8Hex h4

/-! MARC21-XML record model.  A record node holds datafield elements in
document order; each datafield has a tag attribute and subfield elements, in
document order, each with a code attribute and its text content.  A subfield
element with empty text contributes no text node to an xpath text() query, so
each embedded Subfield stands for one extracted text node. -/

structure Subfield where
  code : String
  text : String
deriving DecidableEq

structure Datafield where
  tag : String
  subfields : List Subfield
deriving DecidableEq

structure MarcNode where
  datafields : List Datafield
deriving DecidableEq

/-- Texts of the subfields of f with the given code attribute, in document
order: the xpath query subfield code text() on a datafield. -/
def Datafield.subTexts (f : Datafield) (code : String) : List String :=
  (f.subfields.filter (fun sf => Subfield.code sf == code)).map Subfield.text

/-- Datafields of the node carrying the given tag attribute, in document order. -/
def MarcNode.fieldsWithTag (n : MarcNode) (tag : String) : List Datafield :=
  n.datafields.filter (fun f => Datafield.tag f == tag)

/-- All texts extracted by the xpath query datafield tag, subfield code, text(). -/
def MarcNode.extractAll (n : MarcNode) (tag code : String) : List String :=
  (MarcNode.fieldsWithTag n tag).flatMap (fun f => Datafield.subTexts f code)

/-- First text extracted by the same query, scrapy extract_first: None when absent. -/
def MarcNode.extractFirst (n : MarcNode) (tag code : String) : Option String :=
  (MarcNode.extractAll n tag code).head?

/-- A Python exception raised by the normalizer.  The only exception the
embedded code can raise is TypeError, from applying a string operation to None. -/
inductive PyError
  | typeError
deriving DecidableEq

/-! Hindawi record normalizer, from src/hepcrawl/spiders/hindawi_spider.py. -/

structure Affiliation where
  value : String
deriving DecidableEq

structure Author where
  raw_name : Option String
  affiliations : List Affiliation
deriving DecidableEq

/-- HindawiSpider.get_affiliations: all code u subfield texts of an author
datafield, each wrapped as a single-key value structure, by an appending loop. -/
def get_affiliations (author : Datafield) : List Affiliation :=
  (Datafield.subTexts author "u").foldl (fun acc aff => acc ++ [{ value := aff }]) []

/-- HindawiSpider.get_authors: tag 100 datafields then tag 700 datafields, one
entry per datafield, raw_name from extract_first on code a, by an appending loop. -/
def get_authors (node : MarcNode) : List Author :=
  ((MarcNode.fieldsWithTag node "100") ++ (MarcNode.fieldsWithTag node "700")).foldl
    (fun acc author =>
      acc ++ [{ raw_name := (Datafield.subTexts author "a").head?,
                affiliations := get_affiliations author }]) []

/-- One step of the loop in HindawiSpider.differentiate_urls. -/
def diffStep (acc : List String × List String × List String) (link : String) :
    List String × List String × List String :=
  match acc with
  | (pdf_links, xml_links, splash_links) =>
    if pyIn "pdf" (pyLower link) then (pdf_links ++ [link], xml_links, splash_links)
    else if pyIn "xml" (pyLower link) then (pdf_links, xml_links ++ [link], splash_links)
    else if pyIn "dx.doi.org" (pyLower link) then (pdf_links, xml_links, splash_links ++ [link])
    else (pdf_links, xml_links, splash_links)

/-- HindawiSpider.differentiate_urls: returns (pdf_links, xml_links, splash_links). -/
def differentiate_urls (urls_in_record : List String) : List String × List String × List String :=
  urls_in_record.foldl diffStep ([], [], [])

/-- HindawiSpider.get_urls_in_record: code u texts of tag 856 datafields plus
code a texts of tag FFT datafields, deduplicated by list(set(...)), classified. -/
def get_urls_in_record (node : MarcNode) : List String × List String × List String :=
  differentiate_urls
    (pySet (MarcNode.extractAll node "856" "u" ++ MarcNode.extractAll node "FFT" "a"))

/-- Classification predicate of the spec: a link that contains pdf case insensitively. -/
def isPdfLink (u : String) : Bool := pyIn "pdf" (pyLower u)

/-- Classification predicate of the spec: no pdf, contains xml. -/
def isXmlLink (u : String) : Bool := !(pyIn "pdf" (pyLower u)) && pyIn "xml" (pyLower u)

/-- Classification predicate of the spec: no pdf, no xml, contains dx.doi.org. -/
def isSplashLink (u : String) : Bool :=
  !(pyIn "pdf" (pyLower u)) && !(pyIn "xml" (pyLower u)) && pyIn "dx.doi.org" (pyLower u)

/-- Classification predicate of the spec: none of the three markers, so discarded. -/
def isDiscardedLink (u : String) : Bool :=
  !(pyIn "pdf" (pyLower u)) && !(pyIn "xml" (pyLower u)) && !(pyIn "dx.doi.org" (pyLower u))

/-- The fixed license table of HindawiSpider._get_license: identifier and title
of each known license.  The url entry of the table is never read by the code. -/
def hindawi_licenses : List (String × String) :=
  [("CC-BY-3.0", "Creative Commons Attribution 3.0")]

/-- Modelled from the spec: hepcrawl.mappings.OA_LICENSES is imported by the
spider but the mappings module is not under src/.  The spec describes a fixed
set of open-access regex patterns under which the label CC-BY-3.0 is
open-access; the patterns are modelled as substring patterns. -/
def OA_LICENSES : List String := ["CC-BY"]

/-- Modelled from the spec: re.search of an OA_LICENSES pattern in a string,
with the patterns modelled as substrings. -/
def re_search (pat s : String) : Bool := pyIn pat s

/-- The first loop of HindawiSpider._get_license.  Python evaluates
license_str and license_str in lic or license_str in title; when license_str
is None the right disjunct applies the in operator to None and raises
TypeError, and when it is a string the test is substring containment, with
the identifier normalized to the table key on a match. -/
def licenseLoop : Option String → List (String × String) → Except PyError (Option String)
  | ls, [] => .ok ls
  | ls, (lic, title) :: rest =>
    match ls with
    | none => .error .typeError
    | some s =>
      if (pyTruthy s && pyIn s lic) || pyIn s title then .ok (some lic)
      else licenseLoop (some s) rest

/-- The second loop of HindawiSpider._get_license: re.search of each pattern
against license_str; re.search applied to None raises TypeError. -/
def oaLoop : Option String → List String → Except PyError Bool
  | _, [] => .ok false
  | none, _ :: _ => .error .typeError
  | some s, pats => .ok (pats.any (fun p => re_search p s))

/-- HindawiSpider._get_license: license identifier, license url, open-access flag. -/
def _get_license (node : MarcNode) : Except PyError (Option String × Option String × Bool) :=
  match licenseLoop (MarcNode.extractFirst node "540" "a") hindawi_licenses with
  | .error e => .error e
  | .ok ls =>
    match oaLoop ls OA_LICENSES with
    | .error e => .error e
    | .ok oa => .ok (ls, MarcNode.extractFirst node "540" "u", oa)

/-- HindawiSpider.get_copyright: the tag 542 code f statement and the
concatenation of its digit characters.  When the subfield is absent,
extract_first gives None and iterating None in the join raises TypeError. -/
def get_copyright (node : MarcNode) : Except PyError (String × String) :=
  match MarcNode.extractFirst node "542" "f" with
  | none => .error .typeError
  | some s => .ok (s, String.mk (s.toList.filter Char.isDigit))

structure FFTDict where
  access : String
  description : String
  url : String
  type : String
deriving DecidableEq

/-- HindawiSpider.create_fft_file, with self.name.upper() as description. -/
def create_fft_file (name file_path file_access file_type : String) : FFTDict :=
  { access := file_access, description := pyUpper name, url := file_path, type := file_type }

/-- Modelled from the spec: the output record shape.  hepcrawl.items.HEPRecord
and hepcrawl.loaders.HEPLoader are imported by the spider but are not under
src/; per the spec every field is independently optional except collections,
scalar fields take the first extracted value, and a loader add of None leaves
the field absent. -/
structure HEPRecord where
  authors : List Author
  abstract : Option String
  title : Option String
  date_published : Option String
  page_nr : Option String
  dois : List String
  journal_title : Option String
  journal_volume : Option String
  journal_year : Option String
  journal_issue : Option String
  journal_pages : Option String
  copyright_statement : Option String
  copyright_year : Option String
  license : Option String
  license_url : Option String
  license_type : Option String
  urls : List String
  file_urls : List String
  additional_files : Option (List FFTDict)
  collections : List String
  source : Option String
deriving DecidableEq

/-- The dois xpath of parse_node: code a texts of tag 024 datafields that have
a code 2 subfield whose text contains DOI. -/
def hindawi_dois (node : MarcNode) : List String :=
  (node.datafields.filter (fun f =>
      Datafield.tag f == "024" &&
        f.subfields.any (fun sf => Subfield.code sf == "2" && pyIn "DOI" (Subfield.text sf)))).flatMap
    (fun f => Datafield.subTexts f "a")

/-- Record construction of HindawiSpider.parse_node once copyright and license
extraction have succeeded. -/
def mkHindawiRecord (node : MarcNode) (cr : String × String)
    (lic : Option String × Option String × Bool) : HEPRecord :=
  match get_urls_in_record node with
  | (pdf_links, xml_links, splash_links) =>
    { authors := get_authors node,
      abstract := MarcNode.extractFirst node "520" "a",
      title := MarcNode.extractFirst node "245" "a",
      date_published := MarcNode.extractFirst node "260" "c",
      page_nr := MarcNode.extractFirst node "300" "a",
      dois := hindawi_dois node,
      journal_title := MarcNode.extractFirst node "773" "p",
      journal_volume := MarcNode.extractFirst node "773" "a",
      journal_year := MarcNode.extractFirst node "773" "y",
      journal_issue := MarcNode.extractFirst node "773" "n",
      journal_pages := MarcNode.extractFirst node "773" "c",
      copyright_statement := some cr.1,
      copyright_year := some cr.2,
      license := if pyTruthyOpt lic.1 then lic.1 else none,
      license_url := if pyTruthyOpt lic.1 then lic.2.1 else none,
      license_type := if pyTruthyOpt lic.1 && lic.2.2 then some "open-access" else none,
      urls := splash_links,
      file_urls := pdf_links,
      additional_files :=
        if xml_links.isEmpty then none
        else some (xml_links.map (fun xml => create_fft_file "hindawi" xml "INSPIRE-HIDDEN" "Fulltext")),
      collections := ["HEP", "Citeable", "Published"],
      source := MarcNode.extractFirst node "260" "b" }

/-- HindawiSpider.parse_node for the spider named hindawi: builds the record,
raising whatever get_copyright or _get_license raises. -/
def hindawi_parse_node (node : MarcNode) : Except PyError HEPRecord :=
  match get_copyright node with
  | .error e => .error e
  | .ok cr =>
    match _get_license node with
    | .error e => .error e
    | .ok lic => .ok (mkHindawiRecord node cr lic)

/-! OAI-PMH harvest-state manager, from
src/hepcrawl/spiders/common/oaipmh_spider.py.  File reads and writes,
directory creation and the OAI-PMH fetch are external effects; the embedding
passes the outcome of each as an explicit value and threads the store of
persisted run files as a map from paths to contents. -/

/-- errno.ENOENT, imported by the source as NO_SUCH_FILE_OR_DIR. -/
def NO_SUCH_FILE_OR_DIR : Nat := 2

/-- errno.EEXIST, imported by the source as FILE_EXISTS. -/
def FILE_EXISTS : Nat := 17

/-- The persisted last-run JSON object written by _save_run.  The source key
metadata_prefix is embedded as metadata_format. -/
structure LastRunInfo where
  spider : String
  url : String
  metadata_format : String
  set : Option String
  from_date : Option String
  until_date : Option String
  last_run_started_at : String
  last_run_finished_at : String
deriving DecidableEq

/-- The spider attributes read by the harvest-state code: name, url, the
metadata prefix (embedded as metadata_format), the OAI set and the optional
window bounds. -/
structure SpiderConfig where
  name : String
  url : String
  metadata_format : String
  set : Option String
  from_date : Option String
  until_date : Option String
deriving DecidableEq

/-- OAIPMHSpider._make_alias. -/
def _make_alias (c : SpiderConfig) : String :=
  "metadataPrefix=" ++ SpiderConfig.metadata_format c ++ "&set=" ++
    pyFormatOpt (SpiderConfig.set c)

/-- OAIPMHSpider._last_run_file_path: LAST_RUNS_PATH, the spider name and the
sha1 hex of the alias joined with slashes, with a json extension. -/
def _last_run_file_path (lastRunsPath : String) (c : SpiderConfig) : String :=
  lastRunsPath ++ "/" ++ SpiderConfig.name c ++ "/" ++
    sha1_hexdigest (_make_alias c) ++ ".json"

/-- Errors of OAIPMHSpider._load_last_run: the NoLastRunToLoad exception of
the source, or a propagated IOError with its errno. -/
inductive LoadError
  | noLastRunToLoad (file_path : String)
  | ioError (errno : Nat)
deriving DecidableEq

/-- Outcome of opening the last-run file for reading: the file exists with
parsed contents, the file does not exist, or the read fails with some other
IOError carrying an errno (a well formed environment never signals ENOENT
for a fault other than absence). -/
inductive ReadOutcome
  | found (info : LastRunInfo)
  | absent
  | ioFault (errno : Nat)
deriving DecidableEq

/-- Python open plus json.load under the outcome model: an absent file
raises IOError with errno ENOENT. -/
def pyOpenRead : ReadOutcome → Except Nat LastRunInfo
  | .found info => .ok info
  | .absent => .error NO_SUCH_FILE_OR_DIR
  | .ioFault e => .error e

/-- OAIPMHSpider._load_last_run: converts exactly the ENOENT IOError into
NoLastRunToLoad and re-raises every other IOError. -/
def _load_last_run (env : ReadOutcome) (file_path : String) : Except LoadError LastRunInfo :=
  match pyOpenRead env with
  | .ok info => .ok info
  | .error e =>
    if e = NO_SUCH_FILE_OR_DIR then .error (.noLastRunToLoad file_path)
    else .error (.ioError e)

/-- A store of persisted run files, path to contents. -/
def RunStore : Type := String → Option LastRunInfo

/-- Writing one file into the store, overwriting any previous contents. -/
def pyUpdate (fs : RunStore) (p : String) (v : LastRunInfo) : RunStore :=
  fun q => if q = p then some v else fs q

/-- Read outcome produced by a store with no transient faults. -/
def readOfFS (fs : RunStore) (p : String) : ReadOutcome :=
  match fs p with
  | some info => .found info
  | none => .absent

/-- The last_run_info dictionary built by _save_run: every config field plus
started_at and the current time, both in isoformat. -/
def mkLastRunInfo (c : SpiderConfig) (started_at now : PyDateTime) : LastRunInfo :=
  { spider := SpiderConfig.name c, url := SpiderConfig.url c,
    metadata_format := SpiderConfig.metadata_format c, set := SpiderConfig.set c,
    from_date := SpiderConfig.from_date c, until_date := SpiderConfig.until_date c,
    last_run_started_at := PyDateTime.isoformat started_at,
    last_run_finished_at := PyDateTime.isoformat now }

/-- OAIPMHSpider._save_run: makedirs on the containing directory tolerating
only EEXIST, then the file is written.  The makedirs outcome is passed in;
now is the utcnow reading taken inside _save_run. -/
def _save_run (mkdirsResult : Except Nat Unit) (fs : RunStore) (c : SpiderConfig)
    (lastRunsPath : String) (started_at now : PyDateTime) : Except Nat RunStore :=
  match mkdirsResult with
  | .error errno =>
    if errno = FILE_EXISTS then
      .ok (pyUpdate fs (_last_run_file_path lastRunsPath c) (mkLastRunInfo c started_at now))
    else .error errno
  | .ok _ =>
    .ok (pyUpdate fs (_last_run_file_path lastRunsPath c) (mkLastRunInfo c started_at now))

/-- OAIPMHSpider._resume_from: on a loaded run, until_date or finished_at
under Python or, parsed and reformatted as YYYY-MM-DD; None when no last run
file exists; any other load error propagates. -/
def _resume_from (loadResult : Except LoadError LastRunInfo) : Except Nat (Option String) :=
  match loadResult with
  | .ok run =>
    .ok (some (strftime_Ymd (dateutil_parse
      (pyOr (LastRunInfo.until_date run) (LastRunInfo.last_run_finished_at run)))))
  | .error (.noLastRunToLoad _) => .ok none
  | .error (.ioError e) => .error e

/-- The start-date resolution of start_requests, line self.from_date =
self.from_date or self._resume_from: a truthy explicit from_date wins and the
persisted state is not consulted; otherwise the resume date is used. -/
def resolve_start_date (explicit : Option String) (loadResult : Except LoadError LastRunInfo) :
    Except Nat (Option String) :=
  match explicit with
  | some s => if pyTruthy s then .ok (some s) else _resume_from loadResult
  | none => _resume_from loadResult

/-- Outcome of the sickle ListRecords call in OAIPMHSpider.parse: a record
sequence, the NoRecordsMatch exception, or any other fetch exception. -/
inductive FetchOutcome (α : Type)
  | success (records : List α)
  | noRecordsMatch
  | fetchError
deriving DecidableEq

/-- Errors of one harvest invocation: a fatal fetch failure, or a storage
errno propagated from loading or saving run state. -/
inductive HarvestError
  | fetchFailure
  | storage (errno : Nat)
deriving DecidableEq

/-- OAIPMHSpider.parse: each record yields one parsed item; NoRecordsMatch is
caught and ends the generator cleanly with zero items (the raise of
StopIteration inside the generator); any other fetch exception propagates. -/
def oaipmh_parse {α β : Type} (parse_record : α → β) : FetchOutcome α → Except HarvestError (List β)
  | .success rs => .ok (rs.map parse_record)
  | .noRecordsMatch => .ok []
  | .fetchError => .error .fetchFailure

/-- One harvest invocation under the generator semantics of the source.
OAIPMHSpider.start_requests resolves from_date before the yield (line 67), so
a load failure there aborts the invocation before any fetch or save, and the
first component reports it with the store unchanged.  Otherwise the request
is yielded (line 81) and the parse callback runs separately on the fetch
outcome (first component); when the crawling framework resumes the generator
after the yield it executes _save_run unconditionally (line 84), nothing
tying the save to the outcome of the parse callback, whose exceptions stay in
the callback and never reach the generator (second component: the outcome of
that unconditional save). -/
def start_requests_run {α β : Type} (parse_record : α → β) (c : SpiderConfig)
    (env : ReadOutcome) (outcome : FetchOutcome α) (mkdirsResult : Except Nat Unit)
    (fs : RunStore) (lastRunsPath : String) (started_at now : PyDateTime) :
    Except HarvestError (List β) × Except Nat RunStore :=
  match resolve_start_date (SpiderConfig.from_date c)
      (_load_last_run env (_last_run_file_path lastRunsPath c)) with
  | .error e => (.error (.storage e), .ok fs)
  | .ok fd =>
    (oaipmh_parse parse_record outcome,
     _save_run mkdirsResult fs { c with from_date := fd } lastRunsPath started_at now)

/-! Concrete sample inputs used by the example conjuncts and witnesses. -/

/-- The combined url list of a record: code u texts of tag 856 datafields and
code a texts of tag FFT datafields, before deduplication. -/
def hindawiRecordUrls (node : MarcNode) : List String :=
  MarcNode.extractAll node "856" "u" ++ MarcNode.extractAll node "FFT" "a"

/-- A record node carrying only the copyright statement and the license label. -/
def hindawiMinimalNode : MarcNode :=
  { datafields :=
      [{ tag := "542", subfields := [{ code := "f", text := "Copyright 2016 Hindawi" }] },
       { tag := "540", subfields := [{ code := "a", text := "CC-BY-3.0" }] }] }

/-- The record produced from hindawiMinimalNode: only collections and the
copyright and license fields are populated. -/
def hindawiMinimalRecord : HEPRecord :=
  { authors := [], abstract := none, title := none, date_published := none, page_nr := none,
    dois := [], journal_title := none, journal_volume := none, journal_year := none,
    journal_issue := none, journal_pages := none,
    copyright_statement := some "Copyright 2016 Hindawi", copyright_year := some "2016",
    license := some "CC-BY-3.0", license_url := none, license_type := some "open-access",
    urls := [], file_urls := [], additional_files := none,
    collections := ["HEP", "Citeable", "Published"], source := none }

/-- hindawiMinimalNode extended with one xml fulltext link. -/
def hindawiXmlNode : MarcNode :=
  { datafields :=
      [{ tag := "542", subfields := [{ code := "f", text := "Copyright 2016 Hindawi" }] },
       { tag := "540", subfields := [{ code := "a", text := "CC-BY-3.0" }] },
       { tag := "856", subfields := [{ code := "u", text := "http://x/fulltext.xml" }] }] }

/-- The record produced from hindawiXmlNode. -/
def hindawiXmlRecord : HEPRecord :=
  { authors := [], abstract := none, title := none, date_published := none, page_nr := none,
    dois := [], journal_title := none, journal_volume := none, journal_year := none,
    journal_issue := none, journal_pages := none,
    copyright_statement := some "Copyright 2016 Hindawi", copyright_year := some "2016",
    license := some "CC-BY-3.0", license_url := none, license_type := some "open-access",
    urls := [], file_urls := [],
    additional_files := some [{ access := "INSPIRE-HIDDEN", description := "HINDAWI",
                                url := "http://x/fulltext.xml", type := "Fulltext" }],
    collections := ["HEP", "Citeable", "Published"], source := none }

/-- A persisted run whose until_date is set. -/
def sampleRunUntil : LastRunInfo :=
  { spider := "OAI-PMH", url := "http://export.arxiv.org/oai2", metadata_format := "marc21",
    set := some "HINDAWI.AHEP", from_date := none, until_date := some "2020-02-02",
    last_run_started_at := "2017-12-08T23:55:53.000001",
    last_run_finished_at := "2017-12-08T23:55:54.794969" }

/-- A persisted run whose until_date is absent. -/
def sampleRunNoUntil : LastRunInfo :=
  { spider := "OAI-PMH", url := "http://export.arxiv.org/oai2", metadata_format := "marc21",
    set := some "HINDAWI.AHEP", from_date := none, until_date := none,
    last_run_started_at := "2017-12-08T23:55:53.000001",
    last_run_finished_at := "2017-12-08T23:55:54.794969" }

/-- A sample spider configuration with an explicit from_date. -/
def sampleConfig : SpiderConfig :=
  { name := "OAI-PMH", url := "http://export.arxiv.org/oai2", metadata_format := "marc21",
    set := some "HINDAWI.AHEP", from_date := some "2019-01-01", until_date := none }

/-- A sample clock reading. -/
def sampleT0 : PyDateTime :=
  { year := 2024, month := 1, day := 2, hour := 3, minute := 4, second := 5, microsecond := 6 }

/-- A later sample clock reading. -/
def sampleT1 : PyDateTime :=
  { year := 2024, month := 1, day := 2, hour := 3, minute := 4, second := 6, microsecond := 0 }

/-- The empty store: no persisted run file exists. -/
def emptyStore : RunStore := fun _ => none

/-- A record node carrying the four example urls of the spec across the two
tag families. -/
def urlExampleNode : MarcNode :=
  { datafields :=
      [{ tag := "856", subfields := [{ code := "u", text := "http://x/a.pdf" },
                                     { code := "u", text := "http://x/b.xml" }] },
       { tag := "FFT", subfields := [{ code := "a", text := "http://dx.doi.org/10.1/y" },
                                     { code := "a", text := "http://x/c.txt" }] }] }

/-! Theorems. -/

/-- C1: start-date resolution returns a provided explicit from_date unchanged,
ignoring persisted state; otherwise, with a persisted run, it returns the run
until_date if present else its finished_at truncated to a date, formatted as
YYYY-MM-DD; and with no prior run it returns none. -/
theorem resolve_start_date_spec :
    (∀ (s : String) (lr : Except LoadError LastRunInfo), s ≠ "" →
        resolve_start_date (some s) lr = .ok (some s)) ∧
    (∀ (run : LastRunInfo) (u : String), LastRunInfo.until_date run = some u → u ≠ "" →
        resolve_start_date none (.ok run) = .ok (some (strftime_Ymd (dateutil_parse u)))) ∧
    (∀ (run : LastRunInfo),
        LastRunInfo.until_date run = none ∨ LastRunInfo.until_date run = some "" →
        resolve_start_date none (.ok run) =
          .ok (some (strftime_Ymd (dateutil_parse (LastRunInfo.last_run_finished_at run))))) ∧
    (∀ (p : String), resolve_start_date none (.error (.noLastRunToLoad p)) = .ok none) := by
  refine ⟨fun s lr hs => ?_, fun run u hu hne => ?_, fun run h => ?_, fun p => rfl⟩
  · simp [resolve_start_date, pyTruthy, hs]
  · simp [resolve_start_date, _resume_from, pyOr, pyTruthy, hu, hne]
  · rcases h with h | h <;> simp [resolve_start_date, _resume_from, pyOr, pyTruthy, h]

/-- Witness for C1 at concrete inputs, including the date truncation of a
persisted isoformat finished_at. -/
theorem resolve_start_date_spec_witness :
    resolve_start_date (some "2019-01-01") (.error (.ioError 13)) = .ok (some "2019-01-01") ∧
    resolve_start_date none (.ok sampleRunUntil) =
      .ok (some (strftime_Ymd (dateutil_parse "2020-02-02"))) ∧
    strftime_Ymd (dateutil_parse "2020-02-02") = "2020-02-02" ∧
    resolve_start_date none (.ok sampleRunNoUntil) =
      .ok (some (strftime_Ymd (dateutil_parse "2017-12-08T23:55:54.794969"))) ∧
    strftime_Ymd (dateutil_parse "2017-12-08T23:55:54.794969") = "2017-12-08" ∧
    resolve_start_date none (.error (.noLastRunToLoad "path")) = .ok none :=
  ⟨resolve_start_date_spec.1 "2019-01-01" _ (by decide),
   resolve_start_date_spec.2.1 sampleRunUntil "2020-02-02" rfl (by decide),
   by decide,
   resolve_start_date_spec.2.2.1 sampleRunNoUntil (Or.inl rfl),
   by decide,
   resolve_start_date_spec.2.2.2 "path"⟩

/-- C5: saving the run state and loading it back at the same alias returns
every persisted field unchanged, the started_at being the isoformat of the
clock reading taken at the start and the finished_at the isoformat of the
later reading, which is never earlier than started_at. -/
theorem save_then_load_roundtrip :
    ∀ (fs : RunStore) (c : SpiderConfig) (lastRunsPath : String) (t0 t1 : PyDateTime),
      PyDateTime.key t0 ≤ PyDateTime.key t1 →
      _save_run (.ok ()) fs c lastRunsPath t0 t1 =
        .ok (pyUpdate fs (_last_run_file_path lastRunsPath c) (mkLastRunInfo c t0 t1)) ∧
      _load_last_run
          (readOfFS (pyUpdate fs (_last_run_file_path lastRunsPath c) (mkLastRunInfo c t0 t1))
            (_last_run_file_path lastRunsPath c))
          (_last_run_file_path lastRunsPath c) = .ok (mkLastRunInfo c t0 t1) ∧
      LastRunInfo.spider (mkLastRunInfo c t0 t1) = SpiderConfig.name c ∧
      LastRunInfo.url (mkLastRunInfo c t0 t1) = SpiderConfig.url c ∧
      LastRunInfo.metadata_format (mkLastRunInfo c t0 t1) = SpiderConfig.metadata_format c ∧
      LastRunInfo.set (mkLastRunInfo c t0 t1) = SpiderConfig.set c ∧
      LastRunInfo.from_date (mkLastRunInfo c t0 t1) = SpiderConfig.from_date c ∧
      LastRunInfo.until_date (mkLastRunInfo c t0 t1) = SpiderConfig.until_date c ∧
      LastRunInfo.last_run_started_at (mkLastRunInfo c t0 t1) = PyDateTime.isoformat t0 ∧
      LastRunInfo.last_run_finished_at (mkLastRunInfo c t0 t1) = PyDateTime.isoformat t1 ∧
      PyDateTime.key t0 ≤ PyDateTime.key t1 := by
  intro fs c lastRunsPath t0 t1 h
  refine ⟨rfl, ?_, rfl, rfl, rfl, rfl, rfl, rfl, rfl, rfl, h⟩
  simp [_load_last_run, pyOpenRead, readOfFS, pyUpdate]

/-- Witness for C5 at concrete inputs. -/
theorem save_then_load_roundtrip_witness :
    _save_run (.ok ()) emptyStore sampleConfig "/var/lib/runs" sampleT0 sampleT1 =
      .ok (pyUpdate emptyStore (_last_run_file_path "/var/lib/runs" sampleConfig)
        (mkLastRunInfo sampleConfig sampleT0 sampleT1)) ∧
    _load_last_run
        (readOfFS (pyUpdate emptyStore (_last_run_file_path "/var/lib/runs" sampleConfig)
            (mkLastRunInfo sampleConfig sampleT0 sampleT1))
          (_last_run_file_path "/var/lib/runs" sampleConfig))
        (_last_run_file_path "/var/lib/runs" sampleConfig) =
      .ok (mkLastRunInfo sampleConfig sampleT0 sampleT1) ∧
    LastRunInfo.spider (mkLastRunInfo sampleConfig sampleT0 sampleT1) =
      SpiderConfig.name sampleConfig ∧
    LastRunInfo.url (mkLastRunInfo sampleConfig sampleT0 sampleT1) =
      SpiderConfig.url sampleConfig ∧
    LastRunInfo.metadata_format (mkLastRunInfo sampleConfig sampleT0 sampleT1) =
      SpiderConfig.metadata_format sampleConfig ∧
    LastRunInfo.set (mkLastRunInfo sampleConfig sampleT0 sampleT1) =
      SpiderConfig.set sampleConfig ∧
    LastRunInfo.from_date (mkLastRunInfo sampleConfig sampleT0 sampleT1) =
      SpiderConfig.from_date sampleConfig ∧
    LastRunInfo.until_date (mkLastRunInfo sampleConfig sampleT0 sampleT1) =
      SpiderConfig.until_date sampleConfig ∧
    LastRunInfo.last_run_started_at (mkLastRunInfo sampleConfig sampleT0 sampleT1) =
      PyDateTime.isoformat sampleT0 ∧
    LastRunInfo.last_run_finished_at (mkLastRunInfo sampleConfig sampleT0 sampleT1) =
      PyDateTime.isoformat sampleT1 ∧
    PyDateTime.key sampleT0 ≤ PyDateTime.key sampleT1 :=
  save_then_load_roundtrip emptyStore sampleConfig "/var/lib/runs" sampleT0 sampleT1 (by decide)

/-- C6: loading raises NoLastRunToLoad exactly when the run file does not
exist, any other IOError on load propagates with its errno, and on save a
directory-creation failure propagates unless its errno is EEXIST. -/
theorem load_save_error_taxonomy :
    (∀ (env : ReadOutcome) (fp : String),
        (∀ e, env = .ioFault e → e ≠ NO_SUCH_FILE_OR_DIR) →
        (_load_last_run env fp = .error (.noLastRunToLoad fp) ↔ env = .absent)) ∧
    (∀ (env : ReadOutcome) (fp : String) (e : Nat),
        env = .ioFault e → e ≠ NO_SUCH_FILE_OR_DIR →
        _load_last_run env fp = .error (.ioError e)) ∧
    (∀ (fs : RunStore) (c : SpiderConfig) (lastRunsPath : String) (t0 t1 : PyDateTime) (e : Nat),
        e ≠ FILE_EXISTS → _save_run (.error e) fs c lastRunsPath t0 t1 = .error e) ∧
    (∀ (fs : RunStore) (c : SpiderConfig) (lastRunsPath : String) (t0 t1 : PyDateTime),
        _save_run (.error FILE_EXISTS) fs c lastRunsPath t0 t1 =
          .ok (pyUpdate fs (_last_run_file_path lastRunsPath c) (mkLastRunInfo c t0 t1))) := by
  refine ⟨fun env fp hwf => ?_, fun env fp e he hne => ?_,
    fun fs c lastRunsPath t0 t1 e hne => ?_, fun fs c lastRunsPath t0 t1 => rfl⟩
  · cases env with
    | found info => simp [_load_last_run, pyOpenRead]
    | absent => simp [_load_last_run, pyOpenRead]
    | ioFault e => simp [_load_last_run, pyOpenRead, hwf e rfl]
  · subst he
    simp [_load_last_run, pyOpenRead, hne]
  · simp [_save_run, hne]

/-- Witness for C6 at concrete inputs: an absent file, an EACCES read fault,
an EACCES directory-creation fault and an EEXIST directory-creation outcome. -/
theorem load_save_error_taxonomy_witness :
    (_load_last_run .absent "f.json" = .error (.noLastRunToLoad "f.json") ↔
      (ReadOutcome.absent = .absent)) ∧
    _load_last_run (.ioFault 13) "f.json" = .error (.ioError 13) ∧
    _save_run (.error 13) emptyStore sampleConfig "/var/lib/runs" sampleT0 sampleT1 =
      .error 13 ∧
    _save_run (.error FILE_EXISTS) emptyStore sampleConfig "/var/lib/runs" sampleT0 sampleT1 =
      .ok (pyUpdate emptyStore (_last_run_file_path "/var/lib/runs" sampleConfig)
        (mkLastRunInfo sampleConfig sampleT0 sampleT1)) :=
  ⟨load_save_error_taxonomy.1 .absent "f.json" (by intro e h; cases h),
   load_save_error_taxonomy.2.1 (.ioFault 13) "f.json" 13 rfl (by decide),
   load_save_error_taxonomy.2.2.1 emptyStore sampleConfig "/var/lib/runs" sampleT0 sampleT1 13
     (by decide),
   load_save_error_taxonomy.2.2.2 emptyStore sampleConfig "/var/lib/runs" sampleT0 sampleT1⟩

/-- C2: the program evaluated at the failing input.  A fetch failure other
than NoRecordsMatch is fatal for the parse callback, yet the run window is
persisted anyway, because start_requests executes _save_run unconditionally
after the yield and an exception in the parse callback never reaches the
generator; with NoRecordsMatch the harvest completes with zero output records
and likewise persists the run window. -/
theorem harvest_fatal_fetch_still_persists :
    start_requests_run (fun s : String => s.length) sampleConfig .absent .fetchError (.ok ())
        emptyStore "/var/lib/runs" sampleT0 sampleT1 =
      (.error .fetchFailure,
        .ok (pyUpdate emptyStore
          (_last_run_file_path "/var/lib/runs" { sampleConfig with from_date := some "2019-01-01" })
          (mkLastRunInfo { sampleConfig with from_date := some "2019-01-01" } sampleT0 sampleT1))) ∧
    start_requests_run (fun s : String => s.length) sampleConfig .absent .noRecordsMatch (.ok ())
        emptyStore "/var/lib/runs" sampleT0 sampleT1 =
      (.ok [],
        .ok (pyUpdate emptyStore
          (_last_run_file_path "/var/lib/runs" { sampleConfig with from_date := some "2019-01-01" })
          (mkLastRunInfo { sampleConfig with from_date := some "2019-01-01" } sampleT0 sampleT1))) :=
  ⟨rfl, rfl⟩

/-- The classification loop grows each bucket by the links satisfying the
corresponding priority predicate, in order. -/
theorem diff_foldl_eq :
    ∀ (l p x s : List String),
      l.foldl diffStep (p, x, s) =
        (p ++ l.filter isPdfLink, x ++ l.filter isXmlLink, s ++ l.filter isSplashLink)
  | [], p, x, s => by simp
  | u :: l, p, x, s => by
    by_cases hp : pyIn "pdf" (pyLower u)
    · simp only [List.foldl_cons, diffStep, hp, if_true, diff_foldl_eq l, List.filter_cons,
        isPdfLink, isXmlLink, isSplashLink, hp, Bool.not_true, Bool.false_and, Bool.and_false]
      simp [List.append_assoc]
    · by_cases hx : pyIn "xml" (pyLower u)
      · simp only [List.foldl_cons, diffStep, hp, hx, if_true, if_false, diff_foldl_eq l,
          List.filter_cons, isPdfLink, isXmlLink, isSplashLink, Bool.not_false, Bool.true_and,
          Bool.and_false, Bool.false_and]
        simp [List.append_assoc]
      · by_cases hd : pyIn "dx.doi.org" (pyLower u)
        · simp only [List.foldl_cons, diffStep, hp, hx, hd, if_true, if_false, diff_foldl_eq l,
            List.filter_cons, isPdfLink, isXmlLink, isSplashLink, Bool.not_false, Bool.true_and,
            Bool.and_false, Bool.false_and]
          simp [List.append_assoc]
        · simp only [List.foldl_cons, diffStep, hp, hx, hd, if_false, diff_foldl_eq l,
            List.filter_cons, isPdfLink, isXmlLink, isSplashLink]
          simp

/-- differentiate_urls partitions its input by the three priority predicates. -/
theorem differentiate_urls_eq (l : List String) :
    differentiate_urls l = (l.filter isPdfLink, l.filter isXmlLink, l.filter isSplashLink) := by
  show l.foldl diffStep ([], [], []) = _
  rw [diff_foldl_eq]
  simp

/-- C4: the urls of the two tag families are deduplicated with set semantics
and every deduplicated url lands in exactly one of the four buckets, by
case-insensitive substring match in priority order: pdf, else xml, else
dx.doi.org, else discarded. -/
theorem url_classification_spec :
    ∀ (node : MarcNode),
      (pySet (hindawiRecordUrls node)).Nodup ∧
      (∀ u, u ∈ pySet (hindawiRecordUrls node) ↔ u ∈ hindawiRecordUrls node) ∧
      get_urls_in_record node =
        ((pySet (hindawiRecordUrls node)).filter isPdfLink,
         (pySet (hindawiRecordUrls node)).filter isXmlLink,
         (pySet (hindawiRecordUrls node)).filter isSplashLink) ∧
      (∀ u, u ∈ pySet (hindawiRecordUrls node) →
        (u ∈ (get_urls_in_record node).1 ↔ isPdfLink u = true) ∧
        (u ∈ (get_urls_in_record node).2.1 ↔ isXmlLink u = true) ∧
        (u ∈ (get_urls_in_record node).2.2 ↔ isSplashLink u = true) ∧
        [isPdfLink u, isXmlLink u, isSplashLink u, isDiscardedLink u].count true = 1) := by
  intro node
  have hurls : get_urls_in_record node =
      ((pySet (hindawiRecordUrls node)).filter isPdfLink,
       (pySet (hindawiRecordUrls node)).filter isXmlLink,
       (pySet (hindawiRecordUrls node)).filter isSplashLink) := by
    show differentiate_urls (pySet (hindawiRecordUrls node)) = _
    exact differentiate_urls_eq _
  refine ⟨List.nodup_dedup _, fun u => List.mem_dedup, hurls, fun u hu => ?_⟩
  rw [hurls]
  refine ⟨?_, ?_, ?_, ?_⟩
  · simp [List.mem_filter, hu]
  · simp [List.mem_filter, hu]
  · simp [List.mem_filter, hu]
  · cases hp : pyIn "pdf" (pyLower u) <;> cases hx : pyIn "xml" (pyLower u) <;>
      cases hd : pyIn "dx.doi.org" (pyLower u) <;>
      simp [isPdfLink, isXmlLink, isSplashLink, isDiscardedLink, hp, hx, hd]

/-- Witness for C4 on the url list of the spec example, checking each bucket
membership at a concrete url. -/
theorem url_classification_spec_witness :
    ("http://x/a.pdf" ∈ (get_urls_in_record urlExampleNode).1 ↔
      isPdfLink "http://x/a.pdf" = true) ∧
    ("http://x/b.xml" ∈ (get_urls_in_record urlExampleNode).2.1 ↔
      isXmlLink "http://x/b.xml" = true) ∧
    ("http://dx.doi.org/10.1/y" ∈ (get_urls_in_record urlExampleNode).2.2 ↔
      isSplashLink "http://dx.doi.org/10.1/y" = true) ∧
    [isPdfLink "http://x/c.txt", isXmlLink "http://x/c.txt", isSplashLink "http://x/c.txt",
      isDiscardedLink "http://x/c.txt"].count true = 1 ∧
    get_urls_in_record urlExampleNode =
      (["http://x/a.pdf"], ["http://x/b.xml"], ["http://dx.doi.org/10.1/y"]) :=
  ⟨((url_classification_spec urlExampleNode).2.2.2 "http://x/a.pdf" (by decide)).1,
   ((url_classification_spec urlExampleNode).2.2.2 "http://x/b.xml" (by decide)).2.1,
   ((url_classification_spec urlExampleNode).2.2.2 "http://dx.doi.org/10.1/y" (by decide)).2.2.1,
   ((url_classification_spec urlExampleNode).2.2.2 "http://x/c.txt" (by decide)).2.2.2,
   by decide⟩

/-- The affiliation loop accumulates one wrapped value per code u text. -/
theorem affiliations_loop_eq :
    ∀ (l : List String) (acc : List Affiliation),
      l.foldl (fun acc2 aff => acc2 ++ [{ value := aff }]) acc =
        acc ++ l.map (fun v => { value := v })
  | [], acc => by simp
  | aff :: l, acc => by
    simp only [List.foldl_cons, List.map_cons, affiliations_loop_eq l]
    simp

/-- get_affiliations is the ordered map of code u texts to value structures. -/
theorem get_affiliations_eq (a : Datafield) :
    get_affiliations a = (Datafield.subTexts a "u").map (fun v => { value := v }) := by
  show (Datafield.subTexts a "u").foldl _ [] = _
  rw [affiliations_loop_eq]
  simp

/-- The author loop accumulates one entry per author datafield. -/
theorem authors_loop_eq :
    ∀ (l : List Datafield) (acc : List Author),
      l.foldl (fun acc2 author =>
          acc2 ++ [{ raw_name := (Datafield.subTexts author "a").head?,
                     affiliations := get_affiliations author }]) acc =
        acc ++ l.map (fun f => { raw_name := (Datafield.subTexts f "a").head?,
                                 affiliations := get_affiliations f })
  | [], acc => by simp
  | f :: l, acc => by
    simp only [List.foldl_cons, List.map_cons, authors_loop_eq l]
    simp

/-- C9: the extracted authors list has exactly one entry per author
datafield, the tag 100 fields in document order followed by the tag 700
fields in document order, an entry being emitted with absent raw_name even
when the field has no code a subfield, and each entry carrying one value
structure per code u subfield, in order. -/
theorem get_authors_shape :
    (∀ (node : MarcNode),
      get_authors node =
        ((node.datafields.filter (fun f => Datafield.tag f == "100")) ++
          (node.datafields.filter (fun f => Datafield.tag f == "700"))).map
          (fun f => { raw_name := (Datafield.subTexts f "a").head?,
                      affiliations := (Datafield.subTexts f "u").map (fun v => { value := v }) }) ∧
      (get_authors node).length =
        (node.datafields.filter (fun f => Datafield.tag f == "100")).length +
          (node.datafields.filter (fun f => Datafield.tag f == "700")).length) ∧
    get_authors { datafields := [{ tag := "100", subfields := [{ code := "u", text := "Inst" }] }] } =
      [{ raw_name := none, affiliations := [{ value := "Inst" }] }] := by
  have hmain : ∀ (node : MarcNode),
      get_authors node =
        ((node.datafields.filter (fun f => Datafield.tag f == "100")) ++
          (node.datafields.filter (fun f => Datafield.tag f == "700"))).map
          (fun f => { raw_name := (Datafield.subTexts f "a").head?,
                      affiliations := (Datafield.subTexts f "u").map (fun v => { value := v }) }) := by
    intro node
    show ((MarcNode.fieldsWithTag node "100") ++ (MarcNode.fieldsWithTag node "700")).foldl _ [] = _
    rw [authors_loop_eq]
    simp only [List.nil_append, MarcNode.fieldsWithTag, get_affiliations_eq]
  refine ⟨fun node => ⟨hmain node, ?_⟩, by decide⟩
  rw [hmain node]
  simp

/-- C8: the derived copyright year is the concatenation, in order, of exactly
the digit characters of the statement, a pure character filter, with the two
documented example statements evaluated concretely. -/
theorem copyright_digit_filter :
    (∀ (node : MarcNode) (s : String), MarcNode.extractFirst node "542" "f" = some s →
        get_copyright node = .ok (s, String.mk (s.toList.filter Char.isDigit))) ∧
    get_copyright { datafields :=
        [{ tag := "542", subfields := [{ code := "f", text := "Copyright 2016, Author" }] }] } =
      .ok ("Copyright 2016, Author", "2016") ∧
    get_copyright { datafields :=
        [{ tag := "542", subfields := [{ code := "f", text := "(c) 2015-2016" }] }] } =
      .ok ("(c) 2015-2016", "20152016") := by
  refine ⟨fun node s h => ?_, rfl, rfl⟩
  simp [get_copyright, h]

/-- Witness for C8, applying the filter characterization at a concrete node. -/
theorem copyright_digit_filter_witness :
    get_copyright { datafields :=
        [{ tag := "542", subfields := [{ code := "f", text := "(c) 2015-2016" }] }] } =
      .ok ("(c) 2015-2016", String.mk ("(c) 2015-2016".toList.filter Char.isDigit)) :=
  copyright_digit_filter.1
    { datafields :=
        [{ tag := "542", subfields := [{ code := "f", text := "(c) 2015-2016" }] }] }
    "(c) 2015-2016" rfl

/-- With an absent license label, the table loop applies the in operator to
None and raises TypeError. -/
theorem get_license_error_of_none (node : MarcNode)
    (h : MarcNode.extractFirst node "540" "a" = none) :
    _get_license node = .error .typeError := by
  simp [_get_license, h, hindawi_licenses, licenseLoop]

/-- With a present license label, license resolution always succeeds. -/
theorem get_license_ok_of_some (node : MarcNode) (s : String)
    (h : MarcNode.extractFirst node "540" "a" = some s) :
    ∃ v, _get_license node = .ok v := by
  unfold _get_license
  rw [h]
  cases hc : (pyTruthy s && pyIn s "CC-BY-3.0") || pyIn s "Creative Commons Attribution 3.0" with
  | true =>
    simp only [hindawi_licenses, licenseLoop, hc, if_true]
    exact ⟨_, rfl⟩
  | false =>
    simp only [hindawi_licenses, licenseLoop, hc, if_false]
    exact ⟨_, rfl⟩

/-- C3 counterexample: normalizing an empty record raises TypeError instead
of producing a record, because the copyright digit filter iterates None. -/
theorem parse_node_raises_on_empty_record :
    hindawi_parse_node { datafields := [] } = .error .typeError := rfl

/-- C3 amended: normalization raises exactly when the copyright statement
subfield (tag 542 code f) or the license subfield (tag 540 code a) is absent;
when both are present it never raises, and a record carrying only those two
subfields yields a record with only collections and the copyright and license
fields populated, every other field empty or absent. -/
theorem parse_node_error_characterization :
    (∀ (node : MarcNode),
        (∃ e, hindawi_parse_node node = .error e) ↔
          (MarcNode.extractFirst node "542" "f" = none ∨
            MarcNode.extractFirst node "540" "a" = none)) ∧
    hindawi_parse_node hindawiMinimalNode = .ok hindawiMinimalRecord := by
  refine ⟨fun node => ?_, rfl⟩
  cases h1 : MarcNode.extractFirst node "542" "f" with
  | none =>
    constructor
    · intro _
      exact Or.inl rfl
    · intro _
      exact ⟨.typeError, by simp [hindawi_parse_node, get_copyright, h1]⟩
  | some s =>
    cases h2 : MarcNode.extractFirst node "540" "a" with
    | none =>
      constructor
      · intro _
        exact Or.inr rfl
      · intro _
        exact ⟨.typeError, by
          simp [hindawi_parse_node, get_copyright, h1, get_license_error_of_none node h2]⟩
    | some t =>
      obtain ⟨v, hv⟩ := get_license_ok_of_some node t h2
      constructor
      · rintro ⟨e, he⟩
        have hok : hindawi_parse_node node =
            .ok (mkHindawiRecord node (s, String.mk (s.toList.filter Char.isDigit)) v) := by
          simp [hindawi_parse_node, get_copyright, h1, hv]
        rw [hok] at he
        exact Except.noConfusion he
      · rintro (hx | hx) <;> simp at hx

/-- When parse_node succeeds the result is the constructed record. -/
theorem parse_ok_shape (node : MarcNode) (r : HEPRecord)
    (h : hindawi_parse_node node = .ok r) :
    ∃ cr lic, r = mkHindawiRecord node cr lic := by
  cases hc : get_copyright node with
  | error e => simp [hindawi_parse_node, hc] at h
  | ok cr =>
    cases hl : _get_license node with
    | error e => simp [hindawi_parse_node, hc, hl] at h
    | ok lic =>
      simp [hindawi_parse_node, hc, hl] at h
      exact ⟨cr, lic, h.symm⟩

/-- The additional_files field of the constructed record depends only on the
xml bucket of the url classification. -/
theorem mk_additional_files (node : MarcNode) (cr : String × String)
    (lic : Option String × Option String × Bool) :
    HEPRecord.additional_files (mkHindawiRecord node cr lic) =
      (if ((get_urls_in_record node).2.1).isEmpty then none
       else some (((get_urls_in_record node).2.1).map
         (fun xml => create_fft_file "hindawi" xml "INSPIRE-HIDDEN" "Fulltext"))) := by
  rcases hu : get_urls_in_record node with ⟨p, x, s⟩
  simp [mkHindawiRecord, hu]

/-- C10: the produced record carries no additional_files field at all when
the classification yields no xml links; the field is present exactly when at
least one xml link exists, and then each entry has access INSPIRE-HIDDEN,
type Fulltext, the uppercased spider name as description and the link as url. -/
theorem additional_files_iff_xml_links :
    ∀ (node : MarcNode) (r : HEPRecord), hindawi_parse_node node = .ok r →
      (HEPRecord.additional_files r = none ↔ (get_urls_in_record node).2.1 = []) ∧
      (∀ files, HEPRecord.additional_files r = some files →
        files = ((get_urls_in_record node).2.1).map
            (fun xml => create_fft_file "hindawi" xml "INSPIRE-HIDDEN" "Fulltext") ∧
          ∀ f, f ∈ files → FFTDict.access f = "INSPIRE-HIDDEN" ∧ FFTDict.type f = "Fulltext" ∧
            FFTDict.description f = pyUpper "hindawi" ∧
            FFTDict.url f ∈ (get_urls_in_record node).2.1) := by
  intro node r h
  obtain ⟨cr, lic, hr⟩ := parse_ok_shape node r h
  subst hr
  rw [mk_additional_files]
  by_cases hx : ((get_urls_in_record node).2.1).isEmpty
  · have hnil : (get_urls_in_record node).2.1 = [] := List.isEmpty_iff.mp hx
    rw [if_pos hx]
    refine ⟨⟨fun _ => hnil, fun _ => rfl⟩, fun files hf => Option.noConfusion hf⟩
  · have hne : (get_urls_in_record node).2.1 ≠ [] := fun hh => hx (by simp [hh])
    rw [if_neg hx]
    constructor
    · exact ⟨fun hsome => Option.noConfusion hsome, fun hh => absurd hh hne⟩
    · intro files hf
      have hfe : files = ((get_urls_in_record node).2.1).map
          (fun xml => create_fft_file "hindawi" xml "INSPIRE-HIDDEN" "Fulltext") := by
        injection hf with h2
        exact h2.symm
      refine ⟨hfe, fun f hfmem => ?_⟩
      rw [hfe] at hfmem
      obtain ⟨u, hu, rfl⟩ := List.mem_map.mp hfmem
      exact ⟨rfl, rfl, rfl, hu⟩

/-- Witness for C10 at a concrete node with one xml link. -/
theorem additional_files_iff_xml_links_witness :
    (HEPRecord.additional_files hindawiXmlRecord = none ↔
      (get_urls_in_record hindawiXmlNode).2.1 = []) ∧
    (∀ files, HEPRecord.additional_files hindawiXmlRecord = some files →
      files = ((get_urls_in_record hindawiXmlNode).2.1).map
          (fun xml => create_fft_file "hindawi" xml "INSPIRE-HIDDEN" "Fulltext") ∧
        ∀ f, f ∈ files → FFTDict.access f = "INSPIRE-HIDDEN" ∧ FFTDict.type f = "Fulltext" ∧
          FFTDict.description f = pyUpper "hindawi" ∧
          FFTDict.url f ∈ (get_urls_in_record hindawiXmlNode).2.1) :=
  additional_files_iff_xml_links hindawiXmlNode hindawiXmlRecord rfl

/-- Ampersand-free lists that agree after appending an ampersand and a tail
agree componentwise. -/
theorem split_at_amp :
    ∀ (l1 l2 r1 r2 : List Char), (∀ c ∈ l1, c ≠ '&') → (∀ c ∈ l2, c ≠ '&') →
      l1 ++ '&' :: r1 = l2 ++ '&' :: r2 → l1 = l2 ∧ r1 = r2
  | [], [], r1, r2, _, _, h => by
    simp only [List.nil_append, List.cons.injEq] at h
    exact ⟨rfl, h.2⟩
  | [], c :: l2, r1, r2, h1, h2, h => by
    simp only [List.nil_append, List.cons_append, List.cons.injEq] at h
    exact absurd h.1.symm (h2 c (List.mem_cons_self c l2))
  | c :: l1, [], r1, r2, h1, h2, h => by
    simp only [List.nil_append, List.cons_append, List.cons.injEq] at h
    exact absurd h.1 (h1 c (List.mem_cons_self c l1))
  | c1 :: l1, c2 :: l2, r1, r2, h1, h2, h => by
    simp only [List.cons_append, List.cons.injEq] at h
    obtain ⟨hc, ht⟩ := h
    obtain ⟨hl, hr⟩ := split_at_amp l1 l2 r1 r2
      (fun c hc2 => h1 c (List.mem_cons_of_mem _ hc2))
      (fun c hc2 => h2 c (List.mem_cons_of_mem _ hc2)) ht
    exact ⟨by rw [hc, hl], hr⟩

/-- Over configurations whose metadata prefix contains no ampersand, the
alias determines the metadata prefix and the rendered set: two distinct such
pairs produce distinct aliases, so a collision of persisted paths would
require a SHA-1 collision between distinct aliases. -/
theorem make_alias_inj (c1 c2 : SpiderConfig)
    (h1 : ∀ ch ∈ (SpiderConfig.metadata_format c1).data, ch ≠ '&')
    (h2 : ∀ ch ∈ (SpiderConfig.metadata_format c2).data, ch ≠ '&')
    (h : _make_alias c1 = _make_alias c2) :
    SpiderConfig.metadata_format c1 = SpiderConfig.metadata_format c2 ∧
      pyFormatOpt (SpiderConfig.set c1) = pyFormatOpt (SpiderConfig.set c2) := by
  have hd : ("metadataPrefix=".data ++ (SpiderConfig.metadata_format c1).data) ++
        '&' :: ("set=".data ++ (pyFormatOpt (SpiderConfig.set c1)).data) =
      ("metadataPrefix=".data ++ (SpiderConfig.metadata_format c2).data) ++
        '&' :: ("set=".data ++ (pyFormatOpt (SpiderConfig.set c2)).data) := by
    have hx := congrArg String.data h
    simp only [_make_alias] at hx
    simpa [List.append_assoc] using hx
  have hpre : ∀ ch ∈ "metadataPrefix=".data, ch ≠ '&' := by decide
  obtain ⟨hl, hr⟩ := split_at_amp _ _ _ _
    (fun c hc => by
      rcases List.mem_append.mp hc with hc | hc
      · exact hpre c hc
      · exact h1 c hc)
    (fun c hc => by
      rcases List.mem_append.mp hc with hc | hc
      · exact hpre c hc
      · exact h2 c hc) hd
  constructor
  · have := List.append_cancel_left hl
    exact String.ext this
  · have := List.append_cancel_left hr
    exact String.ext this

end Hepcrawl
